import Mathlib

/-!
Shallow embedding of the `eagerx_tutorials` repository
(`eagerx_tutorials/helper.py` and `eagerx_tutorials/pendulum/objects.py`),
with theorems settling the specification claims about it.

Numeric values are embedded over the exact rationals: Python float literals
are taken at their decimal value, and `math.pi` at the exact value of its
IEEE-754 double.
-/

namespace EagerxTutorials

/-- The exact rational value of the IEEE-754 double `math.pi` used by Python. -/
def py_pi : ℚ := 884279719003555 / 281474976710656

/-! ## `pendulum/objects.py`: the declarative `Pendulum` object -/

/-- Bound of a space converter: `SpaceConverter.make` receives either a scalar
bound (as for the image space) or a per-component list. -/
inductive Bound
  | scalar (q : ℚ)
  | vec (l : List ℚ)
deriving DecidableEq

/-- One `SpaceConverter.make` call as it appears in `Pendulum.agnostic`. -/
structure SpaceConv where
  spaceType : String
  low : Bound
  high : Bound
  shape : Option (List Nat)
  dtype : String
deriving DecidableEq

/-- The agnostic parameters `Pendulum.agnostic` writes into the object spec:
rates, the voltage window, and the four space converters. -/
structure AgnosticParams where
  angle_sensor_rate : ℚ
  angle_sensor_space : SpaceConv
  image_rate : ℚ
  image_space : SpaceConv
  voltage_rate : ℚ
  voltage_window : Nat
  voltage_space : SpaceConv
  model_state_space : SpaceConv
deriving DecidableEq

/-- Sensors registered by the `@register.sensors` decorator on `Pendulum.agnostic`:
name and ROS message type. -/
def registered_sensors : List (String × String) :=
  [("angle_sensor", "Float32MultiArray"), ("image", "Image")]

/-- Actuators registered by the `@register.actuators` decorator. -/
def registered_actuators : List (String × String) :=
  [("voltage", "Float32MultiArray")]

/-- Engine states registered by the `@register.engine_states` decorator. -/
def registered_engine_states : List (String × String) :=
  [("model_state", "Float32MultiArray")]

/-- `Pendulum.agnostic(spec, rate)`: fills in the rates, window and space
converters of the pendulum, given the configured `render_shape`. -/
def Pendulum.agnostic (render_shape : List Nat) (rate : ℚ) : AgnosticParams :=
  { angle_sensor_rate := rate
    angle_sensor_space :=
      { spaceType := "Space_Float32MultiArray", low := Bound.vec [-9999, -9999]
        high := Bound.vec [9999, 9999], shape := none, dtype := "float32" }
    image_rate := 15
    image_space :=
      { spaceType := "Space_Image", low := Bound.scalar 0, high := Bound.scalar 255
        shape := some render_shape, dtype := "uint8" }
    voltage_rate := rate
    voltage_window := 1
    voltage_space :=
      { spaceType := "Space_Float32MultiArray", low := Bound.vec [-3]
        high := Bound.vec [3], shape := none, dtype := "float32" }
    model_state_space :=
      { spaceType := "Space_Float32MultiArray", low := Bound.vec [-py_pi, -9]
        high := Bound.vec [py_pi, 9], shape := none, dtype := "float32" } }

/-- The `spec.config` fields written by `Pendulum.spec`. -/
structure PendulumConfig where
  name : String
  sensors : List String
  actuators : List String
  states : List String
  render_shape : List Nat
deriving DecidableEq

/-- Python truthiness of an optional list argument: `None` and the empty
list are falsy, every nonempty list is truthy. -/
def falsy (o : Option (List α)) : Bool :=
  match o with
  | none => true
  | some l => l.isEmpty

/-- The default of the `rate` keyword argument of `Pendulum.spec`. -/
def default_rate : ℚ := 30

/-- `Pendulum.spec(spec, name, actuators, sensors, states, rate, render_shape)`:
fills the config (with falsy arguments replaced by the defaults) and then calls
`Pendulum.agnostic` with the configured render shape and the given rate. -/
def Pendulum.spec (name : String) (actuators sensors states : Option (List String))
    (rate : ℚ) (render_shape : Option (List Nat)) : PendulumConfig × AgnosticParams :=
  let cfg : PendulumConfig :=
    { name := name
      sensors := if falsy sensors then ["angle_sensor"] else sensors.getD []
      actuators := if falsy actuators then ["voltage"] else actuators.getD []
      states := if falsy states then ["model_state"] else states.getD []
      render_shape := if falsy render_shape then [480, 480] else render_shape.getD [] }
  (cfg, Pendulum.agnostic cfg.render_shape rate)

/-- The engine node types used by `Pendulum.ode_bridge`. -/
inductive NodeType
  | OdeOutput
  | OdeRender
  | OdeInput
deriving DecidableEq

/-- One `EngineNode.make` call in `Pendulum.ode_bridge`. -/
structure EngineNodeSpec where
  nodeType : NodeType
  name : String
  rate : ℚ
  process : Nat
  render_fn : Option String
  default_action : Option (List ℚ)
deriving DecidableEq

/-- An endpoint of a `graph.connect` call. -/
inductive Endpoint
  | nodeOutput (node out : String)
  | nodeInput (node inp : String)
  | sensor (name : String)
  | actuator (name : String)
deriving DecidableEq

/-- One `graph.connect` call: source endpoint, target endpoint and the
`skip` flag (default `False`). -/
structure Connection where
  src : Endpoint
  dst : Endpoint
  skip : Bool
deriving DecidableEq

/-- The bridge-side spec produced by `Pendulum.ode_bridge`: the ODE function,
its parameters, the engine state, the added engine nodes, and the connections. -/
structure OdeBridgeSpec where
  ode : String
  ode_params : List ℚ
  model_state : String
  nodes : List EngineNodeSpec
  connections : List Connection
deriving DecidableEq

/-- `Pendulum.ode_bridge(spec, graph)`: sets the ODE function and parameters,
creates the engine state, adds the three engine nodes (at the rates taken from
the object spec) and makes the five connections. -/
def Pendulum.ode_bridge (p : AgnosticParams) : OdeBridgeSpec :=
  let obs : EngineNodeSpec :=
    { nodeType := NodeType.OdeOutput, name := "angle_sensor", rate := p.angle_sensor_rate
      process := 2, render_fn := none, default_action := none }
  let image : EngineNodeSpec :=
    { nodeType := NodeType.OdeRender, name := "image"
      render_fn := some "eagerx_tutorials.pendulum.pendulum_render/pendulum_render_fn"
      rate := p.image_rate, process := 2, default_action := none }
  let action : EngineNodeSpec :=
    { nodeType := NodeType.OdeInput, name := "pendulum_actuator", rate := p.voltage_rate
      process := 2, render_fn := none, default_action := some [0] }
  { ode := "eagerx_tutorials.pendulum.pendulum_ode/pendulum_ode"
    ode_params := [0.000189238, 0.0563641, 0.0437891, 0.000142205, 0.0502769, 9.83536]
    model_state := "OdeEngineState"
    nodes := [obs, image, action]
    connections :=
      [ { src := Endpoint.nodeOutput "angle_sensor" "observation"
          dst := Endpoint.sensor "angle_sensor", skip := false }
      , { src := Endpoint.nodeOutput "angle_sensor" "observation"
          dst := Endpoint.nodeInput "image" "observation", skip := false }
      , { src := Endpoint.nodeOutput "pendulum_actuator" "action_applied"
          dst := Endpoint.nodeInput "image" "action_applied", skip := true }
      , { src := Endpoint.nodeOutput "image" "image"
          dst := Endpoint.sensor "image", skip := false }
      , { src := Endpoint.actuator "voltage"
          dst := Endpoint.nodeInput "pendulum_actuator" "action", skip := false } ] }

/-! ## `helper.py`: `run_command` -/

/-- The data of a Python `subprocess.CalledProcessError`. -/
structure CalledProcessError where
  returncode : Int
  cmd : String
  output : String
deriving DecidableEq

/-- A line printed to standard output or standard error. -/
inductive OutEv
  | stdout (s : String)
  | stderr (s : String)
deriving DecidableEq

/-- `subprocess.check_output(cmd, shell=True, stderr=..., universal_newlines=True)`,
modelled from the documented `subprocess` semantics (the library is outside this
repository): given the exit code and combined output of the command, it returns
the output on exit code 0 and raises `CalledProcessError` otherwise. -/
def check_output (cmd : String) (exitCode : Int) (output : String) :
    Except CalledProcessError String :=
  if exitCode = 0 then Except.ok output else Except.error ⟨exitCode, cmd, output⟩

/-- `run_command(cmd)`: calls `check_output`; on failure it prints the
diagnostic to standard error and re-raises the same error, on success it prints
the captured output and returns `None`. The first component is the list of printed
lines, the second the outcome. -/
def run_command (cmd : String) (exitCode : Int) (output : String) :
    List OutEv × Except CalledProcessError Unit :=
  match check_output cmd exitCode output with
  | Except.ok out => ([OutEv.stdout out], Except.ok ())
  | Except.error e =>
      ([OutEv.stderr ("ERROR " ++ toString e.returncode ++ ": " ++ cmd ++ "\n\t" ++ e.output)],
       Except.error e)

/-! ## `helper.py`: environments, `evaluate` and `record_video`

The model and environment are abstracted as deterministic functions: `predict`
is `model.predict(obs, deterministic=True)` (its first component), `stepE` is
`env.step(action)` returning the next state, the observation, the reward and
the done flag (the `info` dictionary is unused by this code and omitted), and
`render` is `env.render("rgb_array")`, which does not change the state. -/

/-- The shape of a rendered rgb frame: a three-dimensional numpy array. -/
structure Image where
  height : Nat
  width : Nat
  channels : Nat
deriving DecidableEq

/-- The Python test `0 in img.shape` on a three-dimensional frame. -/
def Image.hasZeroDim (img : Image) : Bool :=
  img.height == 0 || img.width == 0 || img.channels == 0

/-- A deterministic model together with an environment. -/
structure World (S O A : Type) where
  predict : O → A
  resetE : S → S × O
  stepE : S → A → S × O × ℚ × Bool
  render : S → Image

/-- The observable events of `evaluate`: environment interactions and the
file and video effects (printing is not modelled). -/
inductive Ev
  | makedirs (dir : String)
  | resetEv
  | predictDet
  | stepEv
  | renderEv
  | openWriter (width height : Nat) (fps : ℚ)
  | writeFrame
  | releaseWriter
  | ffmpegConvert (file : String)
  | showVid (file : String)
  | removeTemp
deriving DecidableEq

/-- The inner `for _step in tqdm(range(episode_length))` loop of `evaluate`:
predicts, steps, accumulates `episodic_reward`, and in video mode renders a
frame and appends it to `img_array` when no dimension is zero. Returns the
final state, observation, accumulated reward, frame buffer and event list. -/
def stepLoop (W : World S O A) (video : Bool) :
    Nat → S → O → ℚ → List Image → S × O × ℚ × List Image × List Ev
  | 0, s, o, acc, frames => (s, o, acc, frames, [])
  | n + 1, s, o, acc, frames =>
    let a := W.predict o
    let (s1, o1, r, _) := W.stepE s a
    let (fx1, frames1) :=
      if video then
        let img := W.render s1
        ([Ev.renderEv], if img.hasZeroDim then frames else frames ++ [img])
      else ([], frames)
    let (s2, o2, acc2, frames2, fx2) := stepLoop W video n s1 o1 (acc + r) frames1
    (s2, o2, acc2, frames2, Ev.predictDet :: Ev.stepEv :: (fx1 ++ fx2))

/-- The video file name `f"{video_prefix}_{i}"` of episode `i`. -/
def episode_file (video_pre : String) (i : Nat) : String :=
  video_pre ++ "_" ++ toString i

/-- The video-writing block at the end of one episode of `evaluate`: reading
`img_array[-1].shape` fails with an index error when the buffer is empty;
otherwise it opens the writer on `(width, height)` of the last frame, writes
every frame, releases the writer, converts with ffmpeg, shows the video and
removes the temporary file. -/
def videoWriteEvs (fps : ℚ) (video_pre : String) (i : Nat) (frames : List Image) :
    Except Unit (List Ev) :=
  match frames.getLast? with
  | none => Except.error ()
  | some lastImg =>
      Except.ok (Ev.openWriter lastImg.width lastImg.height fps
        :: (frames.map fun _ => Ev.writeFrame)
        ++ [Ev.releaseWriter, Ev.ffmpegConvert (episode_file video_pre i),
            Ev.showVid (episode_file video_pre i), Ev.removeTemp])

/-- The `for i in range(n_eval_episodes)` loop of `evaluate`, from episode
index `i`: each episode resets once, runs `stepLoop`, in video mode writes the
episode video (an exception aborts the remaining episodes), and appends the
episodic reward. Returns the event list and, on success, the final state and
the list of episodic rewards. -/
def epLoop (W : World S O A) (videoRate : Option ℚ) (video_pre : String) (len : Nat) :
    Nat → Nat → S → List Ev × Except Unit (S × List ℚ)
  | 0, _, s => ([], Except.ok (s, []))
  | n + 1, i, s =>
    let (s1, o) := W.resetE s
    let (s2, _, r, frames, fx) := stepLoop W videoRate.isSome len s1 o 0 []
    match videoRate with
    | none =>
      let (fx2, rest) := epLoop W none video_pre len n (i + 1) s2
      (Ev.resetEv :: (fx ++ fx2),
       match rest with
       | Except.ok (s3, l) => Except.ok (s3, r :: l)
       | Except.error e => Except.error e)
    | some fps =>
      match videoWriteEvs fps video_pre i frames with
      | Except.error _ => (Ev.resetEv :: fx, Except.error ())
      | Except.ok vfx =>
        let (fx2, rest) := epLoop W (some fps) video_pre len n (i + 1) s2
        (Ev.resetEv :: (fx ++ vfx ++ fx2),
         match rest with
         | Except.ok (s3, l) => Except.ok (s3, r :: l)
         | Except.error e => Except.error e)

/-- `np.mean` of a list of rewards, modelled over the exact rationals. -/
def npMean (l : List ℚ) : ℚ := l.sum / l.length

/-- `evaluate(model, env, n_eval_episodes, episode_length, video_rate,
video_prefix)`: creates the `videos/` folder, runs the episode loop, and
reports the episodic rewards and their mean. -/
def evaluate (W : World S O A) (s : S) (n_eval_episodes episode_length : Nat)
    (videoRate : Option ℚ) (video_pre : String) :
    List Ev × Except Unit (S × List ℚ × ℚ) :=
  let (fx, res) := epLoop W videoRate video_pre episode_length n_eval_episodes 0 s
  (Ev.makedirs "videos/" :: fx,
   match res with
   | Except.ok (s1, rews) => Except.ok (s1, rews, npMean rews)
   | Except.error e => Except.error e)

/-! ### Specification-side trajectory -/

/-- The deterministic trajectory of `n` steps from state `s` and observation
`o`: the list of (observation, action, reward) triples, where each action is
the deterministic prediction on the current observation, together with the
final state and observation. -/
def trajectory (W : World S O A) : Nat → S → O → List (O × A × ℚ) × S × O
  | 0, s, o => ([], s, o)
  | n + 1, s, o =>
    let a := W.predict o
    let (s1, o1, r, _) := W.stepE s a
    let (t, s2, o2) := trajectory W n s1 o1
    ((o, a, r) :: t, s2, o2)

/-- The sum of the rewards along a trajectory. -/
def trajRewardSum (t : List (O × A × ℚ)) : ℚ := (t.map fun x => x.2.2).sum

/-- The per-episode trajectories of an `n`-episode evaluation with episodes of
`len` steps: each episode resets the environment once and then follows
`trajectory`; the final environment state is also returned. -/
def episodeTrajs (W : World S O A) (len : Nat) : Nat → S → List (List (O × A × ℚ)) × S
  | 0, s => ([], s)
  | n + 1, s =>
    let (s1, o) := W.resetE s
    let (t, s2, _) := trajectory W len s1 o
    let (ts, s3) := episodeTrajs W len n s2
    (t :: ts, s3)

/-- The frames buffered during one episode of `len` steps: the renders after
each step whose shape has no zero dimension. -/
def stepFrames (W : World S O A) : Nat → S → O → List Image
  | 0, _, _ => []
  | n + 1, s, o =>
    let a := W.predict o
    let (s1, o1, _, _) := W.stepE s a
    (if (W.render s1).hasZeroDim then [] else [W.render s1]) ++ stepFrames W n s1 o1

/-- The frame buffers of the successive episodes. -/
def epBuffers (W : World S O A) (len : Nat) : Nat → S → List (List Image)
  | 0, _ => []
  | n + 1, s =>
    let (s1, o) := W.resetE s
    stepFrames W len s1 o :: epBuffers W len n (trajectory W len s1 o).2.1

/-- The events of `evaluate` that create, write or remove a video file. -/
def Ev.isVideoWrite : Ev → Bool
  | Ev.openWriter _ _ _ => true
  | Ev.writeFrame => true
  | Ev.releaseWriter => true
  | Ev.ffmpegConvert _ => true
  | Ev.showVid _ => true
  | Ev.removeTemp => true
  | _ => false

/-! ### `record_video` -/

/-- The arguments `record_video` passes to the `VecVideoRecorder` wrapper. -/
structure Recorder where
  video_folder : String
  record_video_trigger : Nat → Bool
  video_length : Nat
  name_pre : String

/-- The events of `record_video`: reset, the per-step model prediction with
`deterministic=True` and environment step, and closing the recorder. -/
inductive RVEv
  | resetEv
  | predictDet
  | stepEv
  | closeRec
deriving DecidableEq

/-- The `for _ in range(video_length)` loop of `record_video`: each iteration
predicts deterministically on the current observation and steps with the
predicted action; the reward, done flag and info are discarded. -/
def recordLoop (W : World S O A) : Nat → S → O → S × O × List RVEv
  | 0, s, o => (s, o, [])
  | n + 1, s, o =>
    let a := W.predict o
    let (s1, o1, _, _) := W.stepE s a
    let (s2, o2, fx) := recordLoop W n s1 o1
    (s2, o2, RVEv.predictDet :: RVEv.stepEv :: fx)

/-- `record_video(env, model, video_length, prefix, video_folder)`: wraps the
environment in a `VecVideoRecorder` triggered at step 0, resets once, drives
the wrapped environment for `video_length` steps, and closes the recorder. -/
def record_video (W : World S O A) (s : S) (video_length : Nat)
    (pre fold : String) : Recorder × S × List RVEv :=
  let recSpec : Recorder :=
    { video_folder := fold
      record_video_trigger := fun step => step == 0
      video_length := video_length
      name_pre := pre }
  let (s1, o) := W.resetE s
  let (s2, _, fx) := recordLoop W video_length s1 o
  (recSpec, s2, RVEv.resetEv :: (fx ++ [RVEv.closeRec]))

/-! ### `setup_notebook` -/

/-- The observable effects of `setup_notebook`. -/
inductive SetupFX
  | printFX (s : String)
  | setEnv (key val : String)
  | reloadTiffTags
  | runCmdFX (c : String)
  | osSystemFX (c : String)
deriving DecidableEq

/-- The command installing the virtual display packages on Colab. -/
def xvfb_install_cmd : String :=
  "echo \x27Setting up virtual display for visualisation\x27 && apt-get install ffmpeg freeglut3-dev xvfb >> /tmp/eagerx_xvfb.txt 2>&1"

/-- The `os.system` call starting Xvfb on display `:1`. -/
def xvfb_start_cmd : String := "Xvfb :1 -screen 0 1024x768x24 &"

/-- The command installing the eagerx-gui dependencies on Colab. -/
def gui_deps_cmd : String :=
  "echo \x27Installing eagerx-gui dependencies\x27 && pip install pyqt5 pyqtgraph >> /tmp/eagerx_gui_deps.txt 2>&1"

/-- The command installing eagerx-gui on Colab. -/
def gui_colab_cmd : String :=
  "echo \x27Installing eagerx-gui\x27 && pip install --ignore-requires-python --no-deps eagerx-gui >> /tmp/eagerx_gui.txt 2>&1"

/-- The command replacing opencv-python by its headless build on Colab. -/
def opencv_cmd : String :=
  "echo \x27Installing opencv-python-headless\x27 && pip uninstall -y opencv-python opencv-python-headless >> /tmp/opencv_uninstall.txt 2>&1 && pip install opencv-python-headless >> /tmp/opencv_uninstall.txt"

/-- The command installing eagerx-gui outside Colab. -/
def gui_cmd : String :=
  "echo \x27Installing eagerx-gui\x27 && pip install eagerx-gui >> /tmp/eagerx_gui.txt 2>&1"

/-- One `run_command` call inside `setup_notebook`, its effect recorded in the
setup trace; `cmdRes` gives the exit code and combined output of each shell
command. -/
def runCmdStep (cmdRes : String → Int × String) (c : String) :
    List SetupFX × Except CalledProcessError Unit :=
  ([SetupFX.runCmdFX c], (run_command c (cmdRes c).1 (cmdRes c).2).2)

/-- Sequencing of effectful setup steps: an exception in the first step skips
the continuation and propagates. -/
def seqFX (st : List SetupFX × Except CalledProcessError Unit)
    (k : Unit → List SetupFX × Except CalledProcessError Unit) :
    List SetupFX × Except CalledProcessError Unit :=
  match st with
  | (fx, Except.ok _) =>
    let (fx2, r) := k ()
    (fx ++ fx2, r)
  | (fx, Except.error e) => (fx, Except.error e)

/-- `setup_notebook()`: branches on whether it runs on Colab and whether
`eagerx_gui` is importable; installs what is missing and, on Colab without the
gui, sets up the virtual display; a failing command raises out of the
function. Returns the trace of effects and the outcome. -/
def setup_notebook (onColab guiImportable : Bool) (cmdRes : String → Int × String) :
    List SetupFX × Except CalledProcessError Unit :=
  let tail : List SetupFX := [SetupFX.setEnv "EAGERX_RELOAD" "1"]
  if onColab then
    let head : List SetupFX :=
      [SetupFX.printFX "Running on CoLab.", SetupFX.setEnv "EAGERX_COLAB" "1",
       SetupFX.reloadTiffTags]
    if guiImportable then
      (head ++ tail, Except.ok ())
    else
      let r := seqFX (runCmdStep cmdRes xvfb_install_cmd) fun _ =>
        seqFX ([SetupFX.osSystemFX xvfb_start_cmd, SetupFX.setEnv "DISPLAY" ":1"],
               Except.ok ()) fun _ =>
        seqFX (runCmdStep cmdRes gui_deps_cmd) fun _ =>
        seqFX (runCmdStep cmdRes gui_colab_cmd) fun _ =>
        runCmdStep cmdRes opencv_cmd
      match r with
      | (fx, Except.ok _) => (head ++ fx ++ tail, Except.ok ())
      | (fx, Except.error e) => (head ++ fx, Except.error e)
  else
    let head : List SetupFX := [SetupFX.printFX "Not running on CoLab."]
    if guiImportable then
      (head ++ tail, Except.ok ())
    else
      match runCmdStep cmdRes gui_cmd with
      | (fx, Except.ok _) => (head ++ fx ++ tail, Except.ok ())
      | (fx, Except.error e) => (head ++ fx, Except.error e)

/-! ### Concrete instances used to instantiate the theorems -/

/-- A trivial deterministic world on unit types: every step yields reward 1
and renders a 2 by 2 rgb frame. -/
def unitWorld : World Unit Unit Unit :=
  { predict := fun _ => ()
    resetE := fun _ => ((), ())
    stepE := fun _ _ => ((), (), 1, false)
    render := fun _ => ⟨2, 2, 3⟩ }

/-- A world identical to `unitWorld` except that every render has shape
`(0, 0, 0)`. -/
def zeroRenderWorld : World Unit Unit Unit :=
  { predict := fun _ => ()
    resetE := fun _ => ((), ())
    stepE := fun _ _ => ((), (), 1, false)
    render := fun _ => ⟨0, 0, 0⟩ }

/-- A command oracle under which every shell command succeeds with empty
output. -/
def allOkCmd : String → Int × String := fun _ => (0, "")

/-! ## Helper lemmas -/

/-- A trajectory of `n` steps has exactly `n` entries. -/
theorem trajectory_length (W : World S O A) (n : Nat) :
    ∀ (s : S) (o : O), (trajectory W n s o).1.length = n := by
  induction n with
  | zero => intro s o; simp [trajectory]
  | succ n ih =>
    intro s o
    rcases h : W.stepE s (W.predict o) with ⟨s1, o1, r, d⟩
    simp [trajectory, h, ih]

/-- Every action in a trajectory is the deterministic prediction on the
observation of its own step. -/
theorem trajectory_action (W : World S O A) (n : Nat) :
    ∀ (s : S) (o : O), ∀ e ∈ (trajectory W n s o).1, e.2.1 = W.predict e.1 := by
  induction n with
  | zero => intro s o; simp [trajectory]
  | succ n ih =>
    intro s o e he
    rcases h : W.stepE s (W.predict o) with ⟨s1, o1, r, d⟩
    rw [trajectory] at he
    simp only [h] at he
    rcases List.mem_cons.1 he with h1 | h1
    · subst h1; rfl
    · exact ih s1 o1 e h1

/-- `episodeTrajs` produces one trajectory per episode. -/
theorem episodeTrajs_length (W : World S O A) (len : Nat) (n : Nat) :
    ∀ s : S, (episodeTrajs W len n s).1.length = n := by
  induction n with
  | zero => intro s; simp [episodeTrajs]
  | succ n ih =>
    intro s
    rcases h : W.resetE s with ⟨s1, o⟩
    simp [episodeTrajs, h, ih]

/-- Membership in a join of replicated blocks is membership in the block. -/
theorem mem_join_replicate {α : Type} {e : α} {n : Nat} {l : List α}
    (h : e ∈ List.flatten (List.replicate n l)) : e ∈ l := by
  induction n with
  | zero => simp at h
  | succ n ih =>
    rw [List.replicate_succ, List.flatten_cons] at h
    rcases List.mem_append.1 h with h1 | h1
    · exact h1
    · exact ih h1

/-- The loop of `record_video` follows the deterministic trajectory and emits
one predict event and one step event per iteration. -/
theorem recordLoop_eq (W : World S O A) (n : Nat) :
    ∀ (s : S) (o : O),
    recordLoop W n s o =
      ((trajectory W n s o).2.1, (trajectory W n s o).2.2,
       List.flatten (List.replicate n [RVEv.predictDet, RVEv.stepEv])) := by
  induction n with
  | zero => intro s o; simp [recordLoop, trajectory]
  | succ n ih =>
    intro s o
    rcases h : W.stepE s (W.predict o) with ⟨s1, o1, r, d⟩
    simp [recordLoop, trajectory, h, ih, List.replicate_succ]

/-- The inner loop of `evaluate` follows the deterministic trajectory: it ends
in the trajectory's final state and observation, adds the trajectory's reward
sum to the accumulator, appends exactly the nonzero-shaped rendered frames in
video mode, and emits one predict and one step event (plus one render event in
video mode) per iteration. -/
theorem stepLoop_eq (W : World S O A) (video : Bool) (n : Nat) :
    ∀ (s : S) (o : O) (acc : ℚ) (frames : List Image),
    stepLoop W video n s o acc frames =
      ((trajectory W n s o).2.1, (trajectory W n s o).2.2,
       acc + trajRewardSum (trajectory W n s o).1,
       frames ++ (if video then stepFrames W n s o else []),
       List.flatten (List.replicate n
         ([Ev.predictDet, Ev.stepEv] ++ if video then [Ev.renderEv] else []))) := by
  induction n with
  | zero =>
    intro s o acc frames
    cases video <;> simp [stepLoop, trajectory, trajRewardSum, stepFrames]
  | succ n ih =>
    intro s o acc frames
    rcases h : W.stepE s (W.predict o) with ⟨s1, o1, r, d⟩
    cases video with
    | false =>
      simp [stepLoop, trajectory, trajRewardSum, stepFrames, h, ih,
        List.replicate_succ, add_assoc]
    | true =>
      cases hz : (W.render s1).hasZeroDim <;>
        simp [stepLoop, trajectory, trajRewardSum, stepFrames, h, hz, ih,
          List.replicate_succ, add_assoc]

/-- The episode loop of `evaluate` without video: it emits one reset per
episode followed by the per-step events, and returns the per-episode
trajectory reward sums. -/
theorem epLoop_none_eq (W : World S O A) (vp : String) (len : Nat) (n : Nat) :
    ∀ (i : Nat) (s : S),
    epLoop W none vp len n i s =
      (List.flatten (List.replicate n
        (Ev.resetEv :: List.flatten (List.replicate len [Ev.predictDet, Ev.stepEv]))),
       Except.ok ((episodeTrajs W len n s).2,
         (episodeTrajs W len n s).1.map trajRewardSum)) := by
  induction n with
  | zero => intro i s; simp [epLoop, episodeTrajs]
  | succ n ih =>
    intro i s
    rcases h : W.resetE s with ⟨s1, o⟩
    simp [epLoop, episodeTrajs, h, stepLoop_eq, ih, List.replicate_succ]

/-- If the episode loop of `evaluate` in video mode succeeds, it returns the
same final state and per-episode reward sums as without video. -/
theorem epLoop_some_ok (W : World S O A) (vp : String) (len : Nat) (fps : ℚ) (n : Nat) :
    ∀ (i : Nat) (s : S) (x : S × List ℚ),
    (epLoop W (some fps) vp len n i s).2 = Except.ok x →
    x = ((episodeTrajs W len n s).2, (episodeTrajs W len n s).1.map trajRewardSum) := by
  induction n with
  | zero =>
    intro i s x h
    simp [epLoop] at h
    simp [episodeTrajs, ← h]
  | succ n ih =>
    intro i s x h
    rcases hr : W.resetE s with ⟨s1, o⟩
    rw [epLoop] at h
    simp only [hr, stepLoop_eq, Option.isSome_some, List.nil_append, if_true] at h
    cases hv : videoWriteEvs fps vp i (stepFrames W len s1 o) with
    | error e => simp [hv] at h
    | ok vfx =>
      simp only [hv] at h
      cases he : (epLoop W (some fps) vp len n (i + 1) (trajectory W len s1 o).2.1).2 with
      | error e => simp [he] at h
      | ok y =>
        rcases y with ⟨s3, l⟩
        simp only [he] at h
        have hx := ih (i + 1) (trajectory W len s1 o).2.1 (s3, l) he
        obtain rfl : x = (s3, (0 + trajRewardSum (trajectory W len s1 o).1) :: l) :=
          (Except.ok.inj h).symm
        injection hx with h1 h2
        subst h1
        subst h2
        simp [episodeTrajs, hr]

/-- If the episode loop of `evaluate` in video mode succeeds, every episode
buffered at least one frame. -/
theorem epLoop_some_ok_buffers (W : World S O A) (vp : String) (len : Nat)
    (fps : ℚ) (n : Nat) :
    ∀ (i : Nat) (s : S) (x : S × List ℚ),
    (epLoop W (some fps) vp len n i s).2 = Except.ok x →
    ∀ b ∈ epBuffers W len n s, b ≠ [] := by
  induction n with
  | zero => intro i s x _ b hb; simp [epBuffers] at hb
  | succ n ih =>
    intro i s x h b hb
    rcases hr : W.resetE s with ⟨s1, o⟩
    rw [epLoop] at h
    simp only [hr, stepLoop_eq, Option.isSome_some, List.nil_append, if_true] at h
    rw [epBuffers] at hb
    simp only [hr] at hb
    cases hv : videoWriteEvs fps vp i (stepFrames W len s1 o) with
    | error e => simp [hv] at h
    | ok vfx =>
      simp only [hv] at h
      rcases List.mem_cons.1 hb with hb1 | hb1
      · subst hb1
        intro hnil
        rw [videoWriteEvs, hnil] at hv
        simp at hv
      · cases he : (epLoop W (some fps) vp len n (i + 1) (trajectory W len s1 o).2.1).2 with
        | error e => simp [he] at h
        | ok y => exact ih (i + 1) (trajectory W len s1 o).2.1 y he b hb1

/-- Under the hypotheses of C8 every episode buffer is empty. -/
theorem stepFrames_nil (W : World S O A) (len : Nat)
    (h : len = 0 ∨ ∀ st : S, (W.render st).hasZeroDim = true) :
    ∀ (s : S) (o : O), stepFrames W len s o = [] := by
  rcases h with h | h
  · subst h; intro s o; simp [stepFrames]
  · induction len with
    | zero => intro s o; simp [stepFrames]
    | succ n ih =>
      intro s o
      rcases hs : W.stepE s (W.predict o) with ⟨s1, o1, r, d⟩
      simp [stepFrames, hs, h s1, ih]

/-- Every episode trajectory has exactly `len` steps, each acting on the
current observation with the deterministic prediction. -/
theorem episodeTrajs_mem (W : World S O A) (len n : Nat) :
    ∀ (s : S), ∀ t ∈ (episodeTrajs W len n s).1,
      t.length = len ∧ ∀ e ∈ t, e.2.1 = W.predict e.1 := by
  induction n with
  | zero => intro s t ht; simp [episodeTrajs] at ht
  | succ n ih =>
    intro s t ht
    rcases hr : W.resetE s with ⟨s1, o⟩
    rw [episodeTrajs] at ht
    simp only [hr] at ht
    rcases List.mem_cons.1 ht with h1 | h1
    · subst h1
      exact ⟨trajectory_length W len s1 o, trajectory_action W len s1 o⟩
    · exact ih _ t h1

/-! ## Claim theorems -/

/-- C3: The Pendulum object declaration registers exactly the sensors
`angle_sensor` and `image`, the actuator `voltage` and the state `model_state`,
with value ranges `[-9999, 9999]` per component for `angle_sensor`, `[-3, 3]`
for `voltage`, `[-pi, pi] x [-9, 9]` for `model_state`, and pixel values in
`[0, 255]` with the configured `render_shape` for `image`. -/
theorem pendulum_registration_and_ranges (render_shape : List Nat) (rate : ℚ) :
    registered_sensors = [("angle_sensor", "Float32MultiArray"), ("image", "Image")]
    ∧ registered_actuators = [("voltage", "Float32MultiArray")]
    ∧ registered_engine_states = [("model_state", "Float32MultiArray")]
    ∧ (Pendulum.agnostic render_shape rate).angle_sensor_space.low = Bound.vec [-9999, -9999]
    ∧ (Pendulum.agnostic render_shape rate).angle_sensor_space.high = Bound.vec [9999, 9999]
    ∧ (Pendulum.agnostic render_shape rate).voltage_space.low = Bound.vec [-3]
    ∧ (Pendulum.agnostic render_shape rate).voltage_space.high = Bound.vec [3]
    ∧ (Pendulum.agnostic render_shape rate).model_state_space.low = Bound.vec [-py_pi, -9]
    ∧ (Pendulum.agnostic render_shape rate).model_state_space.high = Bound.vec [py_pi, 9]
    ∧ (Pendulum.agnostic render_shape rate).image_space.low = Bound.scalar 0
    ∧ (Pendulum.agnostic render_shape rate).image_space.high = Bound.scalar 255
    ∧ (Pendulum.agnostic render_shape rate).image_space.shape = some render_shape :=
  ⟨rfl, rfl, rfl, rfl, rfl, rfl, rfl, rfl, rfl, rfl, rfl, rfl⟩

/-- C4: For every `rate` passed to `Pendulum.spec` (default 30.0), the
angle_sensor rate and the voltage rate equal the given rate, the voltage
window is 1, and the image rate is fixed at 15. -/
theorem pendulum_rates (name : String) (a se st : Option (List String))
    (rate : ℚ) (rs : Option (List Nat)) :
    default_rate = 30
    ∧ (Pendulum.spec name a se st rate rs).2.angle_sensor_rate = rate
    ∧ (Pendulum.spec name a se st rate rs).2.voltage_rate = rate
    ∧ (Pendulum.spec name a se st rate rs).2.voltage_window = 1
    ∧ (Pendulum.spec name a se st rate rs).2.image_rate = 15 :=
  ⟨rfl, rfl, rfl, rfl, rfl⟩

/-- C5: `Pendulum.ode_bridge` performs a fixed declarative wiring: it adds
exactly the three engine nodes (OdeOutput, OdeRender, OdeInput) and exactly the
five connections listed in the claim, and sets the ODE function and the six
fixed ODE parameters. -/
theorem ode_bridge_wiring (p : AgnosticParams) :
    (Pendulum.ode_bridge p).nodes.map (fun nd => (nd.nodeType, nd.name)) =
      [(NodeType.OdeOutput, "angle_sensor"), (NodeType.OdeRender, "image"),
       (NodeType.OdeInput, "pendulum_actuator")]
    ∧ (Pendulum.ode_bridge p).nodes.length = 3
    ∧ (Pendulum.ode_bridge p).connections =
      [ ⟨Endpoint.nodeOutput "angle_sensor" "observation", Endpoint.sensor "angle_sensor", false⟩
      , ⟨Endpoint.nodeOutput "angle_sensor" "observation", Endpoint.nodeInput "image" "observation", false⟩
      , ⟨Endpoint.nodeOutput "pendulum_actuator" "action_applied", Endpoint.nodeInput "image" "action_applied", true⟩
      , ⟨Endpoint.nodeOutput "image" "image", Endpoint.sensor "image", false⟩
      , ⟨Endpoint.actuator "voltage", Endpoint.nodeInput "pendulum_actuator" "action", false⟩ ]
    ∧ (Pendulum.ode_bridge p).connections.length = 5
    ∧ (Pendulum.ode_bridge p).ode = "eagerx_tutorials.pendulum.pendulum_ode/pendulum_ode"
    ∧ (Pendulum.ode_bridge p).ode_params =
        [0.000189238, 0.0563641, 0.0437891, 0.000142205, 0.0502769, 9.83536]
    ∧ (Pendulum.ode_bridge p).ode_params.length = 6 :=
  ⟨rfl, rfl, rfl, rfl, rfl, rfl, rfl⟩

/-- C9: In `Pendulum.spec`, any falsy argument selects the default: `None` or
an empty list for sensors, actuators or states yields `["angle_sensor"]`,
`["voltage"]` and `["model_state"]` respectively, a falsy `render_shape`
yields `[480, 480]`, and the configured sensor, actuator and state lists are
never empty. -/
theorem pendulum_spec_falsy_defaults (name : String) (a se st : Option (List String))
    (rate : ℚ) (rs : Option (List Nat)) :
    ((se = none ∨ se = some []) →
      (Pendulum.spec name a se st rate rs).1.sensors = ["angle_sensor"])
    ∧ ((a = none ∨ a = some []) →
      (Pendulum.spec name a se st rate rs).1.actuators = ["voltage"])
    ∧ ((st = none ∨ st = some []) →
      (Pendulum.spec name a se st rate rs).1.states = ["model_state"])
    ∧ ((rs = none ∨ rs = some []) →
      (Pendulum.spec name a se st rate rs).1.render_shape = [480, 480])
    ∧ (Pendulum.spec name a se st rate rs).1.sensors ≠ []
    ∧ (Pendulum.spec name a se st rate rs).1.actuators ≠ []
    ∧ (Pendulum.spec name a se st rate rs).1.states ≠ [] := by
  refine ⟨?_, ?_, ?_, ?_, ?_, ?_, ?_⟩
  · rintro (rfl | rfl) <;> simp [Pendulum.spec, falsy]
  · rintro (rfl | rfl) <;> simp [Pendulum.spec, falsy]
  · rintro (rfl | rfl) <;> simp [Pendulum.spec, falsy]
  · rintro (rfl | rfl) <;> simp [Pendulum.spec, falsy]
  · rcases se with _ | (_ | ⟨x, xs⟩) <;> simp [Pendulum.spec, falsy]
  · rcases a with _ | (_ | ⟨x, xs⟩) <;> simp [Pendulum.spec, falsy]
  · rcases st with _ | (_ | ⟨x, xs⟩) <;> simp [Pendulum.spec, falsy]

/-- Witness for C9 at concrete arguments. -/
theorem pendulum_spec_falsy_defaults_witness :
    (Pendulum.spec "pendulum" none none none 30 none).1.sensors = ["angle_sensor"] :=
  (pendulum_spec_falsy_defaults "pendulum" none none none 30 none).1 (Or.inl rfl)

/-- C10: `run_command` raises exactly when the command exits with a nonzero
status; on failure it prints to standard error a diagnostic containing the
return code, the command and the captured output, and re-raises the same
`CalledProcessError`; on success it returns after printing the output. -/
theorem run_command_raise_iff (cmd : String) (code : Int) (outp : String) :
    ((∃ e, (run_command cmd code outp).2 = Except.error e) ↔ code ≠ 0)
    ∧ (code = 0 → run_command cmd code outp = ([OutEv.stdout outp], Except.ok ()))
    ∧ (code ≠ 0 →
        (run_command cmd code outp).2 = Except.error ⟨code, cmd, outp⟩
        ∧ (∃ u v, (run_command cmd code outp).1 = [OutEv.stderr (u ++ cmd ++ v)])
        ∧ (∃ u v, (run_command cmd code outp).1 = [OutEv.stderr (u ++ toString code ++ v)])
        ∧ (∃ u v, (run_command cmd code outp).1 = [OutEv.stderr (u ++ outp ++ v)])) := by
  by_cases h : code = 0
  · subst h
    refine ⟨?_, fun _ => rfl, fun hc => absurd rfl hc⟩
    simp [run_command, check_output]
  · refine ⟨?_, fun hc => absurd hc h, fun _ => ?_⟩
    · simp only [run_command, check_output, if_neg h]
      exact ⟨fun _ => h, fun _ => ⟨⟨code, cmd, outp⟩, rfl⟩⟩
    · refine ⟨?_, ?_, ?_, ?_⟩
      · simp [run_command, check_output, if_neg h]
      · refine ⟨"ERROR " ++ toString code ++ ": ", "\n\t" ++ outp, ?_⟩
        simp [run_command, check_output, if_neg h, String.append_assoc]
      · refine ⟨"ERROR ", ": " ++ cmd ++ "\n\t" ++ outp, ?_⟩
        simp [run_command, check_output, if_neg h, String.append_assoc]
      · refine ⟨"ERROR " ++ toString code ++ ": " ++ cmd ++ "\n\t", "", ?_⟩
        simp [run_command, check_output, if_neg h, String.append_assoc]

/-- Witness for C10 at a concrete failing command. -/
theorem run_command_raise_iff_witness :
    (run_command "ls" 1 "boom").2 = Except.error ⟨1, "ls", "boom"⟩ :=
  ((run_command_raise_iff "ls" 1 "boom").2.2 (by decide)).1

/-- C2: `record_video` wraps the environment in a recorder triggered exactly at
step 0 with the given video length and prefix, resets once, drives the
environment for exactly `N` steps, each step predicting deterministically on
the current observation and stepping with the predicted action (rewards, done
flags and infos are discarded), and finally closes the recorder. -/
theorem record_video_drives_env (W : World S O A) (s : S) (N : Nat) (pre fold : String) :
    (∀ k, (record_video W s N pre fold).1.record_video_trigger k = true ↔ k = 0)
    ∧ (record_video W s N pre fold).1.video_length = N
    ∧ (record_video W s N pre fold).1.name_pre = pre
    ∧ (record_video W s N pre fold).1.video_folder = fold
    ∧ (record_video W s N pre fold).2.2 =
        RVEv.resetEv ::
          (List.flatten (List.replicate N [RVEv.predictDet, RVEv.stepEv]) ++ [RVEv.closeRec])
    ∧ (record_video W s N pre fold).2.1 =
        (trajectory W N (W.resetE s).1 (W.resetE s).2).2.1 := by
  rcases h : W.resetE s with ⟨s1, o⟩
  refine ⟨fun k => by simp [record_video], ?_, ?_, ?_, ?_, ?_⟩
  · rfl
  · rfl
  · rfl
  · simp [record_video, h, recordLoop_eq]
  · simp [record_video, h, recordLoop_eq]

/-- Witness for C2 at a concrete recorder. -/
theorem record_video_drives_env_witness :
    (record_video unitWorld () 2 "p" "videos/").1.video_length = 2 :=
  (record_video_drives_env unitWorld () 2 "p" "videos/").2.1


/-- C1: `evaluate` runs `n_eval_episodes` episodes; each episode resets the
environment once and then runs a straightline loop of exactly `episode_length`
iterations, each predicting deterministically on the current observation and
stepping with the predicted action; the reported episodic reward of each
episode is the sum of the step rewards of that episode, and the reported mean
is the arithmetic mean of the per-episode sums. -/
theorem evaluate_episode_structure (W : World S O A) (s : S) (n len : Nat) (vp : String) :
    evaluate W s n len none vp =
      (Ev.makedirs "videos/" ::
        List.flatten (List.replicate n
          (Ev.resetEv :: List.flatten (List.replicate len [Ev.predictDet, Ev.stepEv]))),
       Except.ok ((episodeTrajs W len n s).2,
         (episodeTrajs W len n s).1.map trajRewardSum,
         npMean ((episodeTrajs W len n s).1.map trajRewardSum)))
    ∧ (episodeTrajs W len n s).1.length = n
    ∧ (∀ t ∈ (episodeTrajs W len n s).1, t.length = len ∧ ∀ e ∈ t, e.2.1 = W.predict e.1)
    ∧ npMean ((episodeTrajs W len n s).1.map trajRewardSum) =
        ((episodeTrajs W len n s).1.map trajRewardSum).sum / n := by
  refine ⟨?_, episodeTrajs_length W len n s, episodeTrajs_mem W len n s, ?_⟩
  · simp [evaluate, epLoop_none_eq]
  · simp [npMean, List.length_map, episodeTrajs_length]

/-- Witness for C1 at a concrete one-episode, one-step evaluation. -/
theorem evaluate_episode_structure_witness :
    (trajectory unitWorld 1 () ()).1.length = 1
    ∧ ∀ e ∈ (trajectory unitWorld 1 () ()).1, e.2.1 = unitWorld.predict e.1 :=
  (evaluate_episode_structure unitWorld () 1 1 "vid").2.2.1
    (trajectory unitWorld 1 () ()).1 (by simp [episodeTrajs, unitWorld])

/-- C6: with `video_rate=None`, `evaluate` renders no frame and creates or
removes no video file: apart from the creation of the `videos/` folder its only
events are the environment interactions; and the reward computation is the
same in both modes: whenever video mode completes, it reports exactly the
rewards and mean of the no-video mode. -/
theorem evaluate_none_effects (W : World S O A) (s : S) (n len : Nat) (vp : String) :
    (∀ e ∈ (evaluate W s n len none vp).1,
        e = Ev.makedirs "videos/" ∨ e = Ev.resetEv ∨ e = Ev.predictDet ∨ e = Ev.stepEv)
    ∧ (∀ (fps : ℚ) (x : S × List ℚ × ℚ),
        (evaluate W s n len (some fps) vp).2 = Except.ok x →
        (evaluate W s n len none vp).2 = Except.ok x) := by
  constructor
  · intro e he
    have h1 : (evaluate W s n len none vp).1 =
        Ev.makedirs "videos/" :: List.flatten (List.replicate n
          (Ev.resetEv :: List.flatten (List.replicate len [Ev.predictDet, Ev.stepEv]))) := by
      simp [evaluate, epLoop_none_eq]
    rw [h1] at he
    rcases List.mem_cons.1 he with rfl | he2
    · exact Or.inl rfl
    · rcases List.mem_cons.1 (mem_join_replicate he2) with rfl | he3
      · exact Or.inr (Or.inl rfl)
      · rcases (by simpa using mem_join_replicate he3 :
            e = Ev.predictDet ∨ e = Ev.stepEv) with rfl | rfl
        · exact Or.inr (Or.inr (Or.inl rfl))
        · exact Or.inr (Or.inr (Or.inr rfl))
  · intro fps x hx
    cases he : (epLoop W (some fps) vp len n 0 s).2 with
    | error e => simp [evaluate, he] at hx
    | ok y =>
      rcases y with ⟨s1, rews⟩
      have hy := epLoop_some_ok W vp len fps n 0 s (s1, rews) he
      injection hy with hA hB
      simp only [evaluate, he] at hx
      simp only [evaluate, epLoop_none_eq]
      rw [← hx, hA, hB]

/-- Witness for C6: a one-episode, one-step video-mode run that completes,
reporting the same reward as the no-video mode. -/
theorem evaluate_none_effects_witness :
    (evaluate unitWorld () 1 1 none "vid").2 = Except.ok ((), [1], 1) :=
  (evaluate_none_effects unitWorld () 1 1 "vid").2 30 ((), [1], 1)
    (by simp [evaluate, epLoop, stepLoop, videoWriteEvs, npMean, unitWorld,
          Image.hasZeroDim, episode_file, trajRewardSum])

/-- C8: in video mode, if an episode collects no frames (because the episode
length is 0 or every rendered frame has a zero-sized dimension), the access
`img_array[-1]` fails before any video is written; completing in video mode
requires every episode to buffer at least one frame. -/
theorem evaluate_video_empty_buffer (W : World S O A) (s : S) (n len : Nat)
    (fps : ℚ) (vp : String) :
    ((len = 0 ∨ ∀ st : S, (W.render st).hasZeroDim = true) → 1 ≤ n →
      (evaluate W s n len (some fps) vp).2 = Except.error ()
      ∧ ∀ e ∈ (evaluate W s n len (some fps) vp).1, e.isVideoWrite = false)
    ∧ (∀ x, (evaluate W s n len (some fps) vp).2 = Except.ok x →
        ∀ b ∈ epBuffers W len n s, b ≠ []) := by
  constructor
  · intro hz hn
    cases n with
    | zero => exact absurd hn (by decide)
    | succ m =>
      rcases hr : W.resetE s with ⟨s1, o⟩
      have hfr := stepFrames_nil W len hz s1 o
      have hev : epLoop W (some fps) vp len (m + 1) 0 s =
          (Ev.resetEv :: List.flatten (List.replicate len
            ([Ev.predictDet, Ev.stepEv] ++ [Ev.renderEv])), Except.error ()) := by
        rw [epLoop]
        simp only [hr, stepLoop_eq, Option.isSome_some, List.nil_append, if_true, hfr]
        simp [videoWriteEvs]
      constructor
      · simp [evaluate, hev]
      · intro e he
        have h1 : (evaluate W s m.succ len (some fps) vp).1 =
            Ev.makedirs "videos/" :: Ev.resetEv :: List.flatten (List.replicate len
              ([Ev.predictDet, Ev.stepEv] ++ [Ev.renderEv])) := by
          simp [evaluate, hev]
        rw [h1] at he
        rcases List.mem_cons.1 he with rfl | he2
        · rfl
        · rcases List.mem_cons.1 he2 with rfl | he3
          · rfl
          · rcases (by simpa using mem_join_replicate he3 :
                e = Ev.predictDet ∨ e = Ev.stepEv ∨ e = Ev.renderEv) with rfl | rfl | rfl
            · rfl
            · rfl
            · rfl
  · intro x hx
    cases he : (epLoop W (some fps) vp len n 0 s).2 with
    | error e => simp [evaluate, he] at hx
    | ok y => exact epLoop_some_ok_buffers W vp len fps n 0 s y he

/-- Witness for C8: with every render of shape `(0, 0, 0)`, a one-episode
video-mode evaluation fails. -/
theorem evaluate_video_empty_buffer_witness :
    (evaluate zeroRenderWorld () 1 1 (some 30) "vid").2 = Except.error () :=
  ((evaluate_video_empty_buffer zeroRenderWorld () 1 1 30 "vid").1
    (Or.inr fun _ => rfl) (by decide)).1

/-- C7: when all shell commands succeed, `setup_notebook` installs the display
packages, starts Xvfb on display `:1`, sets `DISPLAY` to `":1"` and sets
`EAGERX_COLAB` to `"1"` exactly when it runs on Colab with `eagerx_gui` not
importable, and on every path its last effect is setting `EAGERX_RELOAD`
to `"1"`. -/
theorem setup_notebook_paths (onColab gui : Bool) (cmdRes : String → Int × String)
    (hok : ∀ c, (cmdRes c).1 = 0) :
    (setup_notebook onColab gui cmdRes).2 = Except.ok ()
    ∧ ((onColab = true ∧ gui = false) →
        SetupFX.runCmdFX xvfb_install_cmd ∈ (setup_notebook onColab gui cmdRes).1
        ∧ SetupFX.osSystemFX xvfb_start_cmd ∈ (setup_notebook onColab gui cmdRes).1
        ∧ SetupFX.setEnv "DISPLAY" ":1" ∈ (setup_notebook onColab gui cmdRes).1
        ∧ SetupFX.setEnv "EAGERX_COLAB" "1" ∈ (setup_notebook onColab gui cmdRes).1)
    ∧ (¬(onColab = true ∧ gui = false) →
        SetupFX.runCmdFX xvfb_install_cmd ∉ (setup_notebook onColab gui cmdRes).1
        ∧ SetupFX.osSystemFX xvfb_start_cmd ∉ (setup_notebook onColab gui cmdRes).1
        ∧ SetupFX.setEnv "DISPLAY" ":1" ∉ (setup_notebook onColab gui cmdRes).1)
    ∧ (setup_notebook onColab gui cmdRes).1.getLast? =
        some (SetupFX.setEnv "EAGERX_RELOAD" "1") := by
  have h1 : ∀ c, runCmdStep cmdRes c = ([SetupFX.runCmdFX c], Except.ok ()) := by
    intro c
    simp [runCmdStep, run_command, check_output, hok c]
  cases onColab <;> cases gui <;>
    simp [setup_notebook, seqFX, h1] <;> decide

/-- Witness for C7: on Colab without the gui, with all commands succeeding. -/
theorem setup_notebook_paths_witness :
    (setup_notebook true false allOkCmd).2 = Except.ok () :=
  (setup_notebook_paths true false allOkCmd (fun _ => rfl)).1

end EagerxTutorials
